import Mathlib

/-!
# Verification of `updateMods.py`

A shallow embedding of the mod-updater script and proofs of the frozen
claims about it.  The embedding models:

* `matches_hashes`  — the hash verifier (file digests abstracted to the
  strings a streaming hash pass would produce);
* `downstep_version` — the version decrement function, working on the
  dot-separated character decomposition of the version string exactly as
  `version.split(".")` does in the source;
* `select_build` / `download_modrinth_mod` — the Modrinth build selection
  and installer (network and filesystem as explicit state);
* `ladder_step` / `ladder_run` / `run_mods` — the per-mod fallback
  while-loop and the surrounding mods loop.

Python truthiness of the optional identifier arguments (`None`, `""` and
`0` are all falsy) is modelled by `truthyStr` / `truthyNat` on `Option`.
-/

namespace UpdateMods

/-! ## Characters, digits and decimal rendering

`downstep_version` in the source checks `str.isnumeric` and rebuilds the
decremented version with f-strings.  We model decimal rendering of a
natural number with an explicit fuel argument so every definition stays
structurally recursive and kernel-evaluable. -/

/-- The decimal digit character for `d % 10`-style arguments (`0`–`9`). -/
def digitChar : Nat → Char
  | 0 => '0' | 1 => '1' | 2 => '2' | 3 => '3' | 4 => '4'
  | 5 => '5' | 6 => '6' | 7 => '7' | 8 => '8' | _ => '9'

/-- Numeric value of a decimal digit character. -/
def digitVal (c : Char) : Nat := c.toNat - 48

/-- Fuelled decimal rendering; `natStr` supplies enough fuel. -/
def natStrAux : Nat → Nat → List Char
  | 0, _ => []
  | f + 1, n =>
    if n < 10 then [digitChar n] else natStrAux f (n / 10) ++ [digitChar (n % 10)]

/-- Decimal rendering of a natural number, as Python's `str(n)`. -/
def natStr (n : Nat) : List Char := natStrAux (n + 1) n

/-- Value of a decimal digit string, as Python's `int(s)` for digit-only `s`. -/
def digitsVal (l : List Char) : Nat :=
  l.foldl (fun a c => 10 * a + digitVal c) 0

/-- Rendering of a Python `int` (which may be negative after `- 1`). -/
def intChars (i : Int) : List Char :=
  if i < 0 then '-' :: natStr i.natAbs else natStr i.toNat

/-- Python's `str.isnumeric` for the ASCII version components the script
handles: non-empty and all decimal digits. -/
def isnumericB (l : List Char) : Bool := !l.isEmpty && l.all (fun c => c.isDigit)

/-! ## Splitting on dots

`version.split(".")` in Python: splitting `""` yields `[""]`, adjacent
dots yield empty components. -/

/-- Python's `s.split(".")` on the character list of `s`. -/
def splitDot : List Char → List (List Char)
  | [] => [[]]
  | c :: cs =>
    if c = '.' then [] :: splitDot cs
    else
      match splitDot cs with
      | [] => [[c]]
      | r :: rs => (c :: r) :: rs

/-- `"a.b"`-style version string built from two numeric components. -/
def verStr2 (a b : Nat) : String := ⟨natStr a ++ '.' :: natStr b⟩

/-- `"a.b.c"`-style version string built from three numeric components. -/
def verStr3 (a b c : Nat) : String := ⟨natStr a ++ '.' :: (natStr b ++ '.' :: natStr c)⟩

/-! ## `downstep_version` (source lines 90–109)

The Python function raises `ValueError(msg, arg)` for non-numeric input,
two-component input and a literal `"0"` third component; for other
component counts it falls off the end of the `match` and returns `None`.
The result type records all three behaviours: `.error (msg, arg)` for the
`ValueError`s, `.ok (some v)` for a returned version and `.ok none` for
the implicit `None`. -/

/-- The body of `downstep_version` after `version.split(".")`. -/
def downstep_core (version : String) (parts : List (List Char)) :
    Except (String × String) (Option String) :=
  if !parts.all isnumericB then
    .error (version ++ " is a snapshot, prerelease, release candidate, or April Fool's update, and cannot be decremented.", version)
  else
    match parts with
    | [_, _] =>
      .error (version ++ " is a base version and cannot be decremented", version ++ ".x")
    | [x, y, z] =>
      if z = ['0'] then
        .error ((⟨x ++ '.' :: y⟩ : String) ++ " is a base version and cannot be decremented",
          (⟨x ++ '.' :: y⟩ : String) ++ ".x")
      else
        let new_minor : Int := (digitsVal z : Int) - 1
        if new_minor = 0 then .ok (some ⟨x ++ '.' :: y⟩)
        else .ok (some ⟨x ++ '.' :: (y ++ '.' :: intChars new_minor)⟩)
    | _ => .ok none

/-- `downstep_version` from the source: split on dots, then `downstep_core`. -/
def downstep_version (version : String) : Except (String × String) (Option String) :=
  downstep_core version (splitDot version.data)

/-! ## `matches_hashes` (source lines 39–60)

The file on disk is abstracted to the digests and size a full streaming
pass would produce.  The optional arguments keep Python truthiness:
`None`, the empty string and `0` are all "no identifier". -/

/-- Digest/size identity of a file's bytes. -/
structure FileData where
  sha1 : String
  sha512 : String
  size : Nat
  deriving DecidableEq, Repr

/-- Python truthiness of an optional string argument. -/
def truthyStr : Option String → Bool
  | none => false
  | some s => !(s == "")

/-- Python truthiness of an optional integer argument. -/
def truthyNat : Option Nat → Bool
  | none => false
  | some n => !(n == 0)

/-- `matches_hashes(filepath, sha1, sha512, size)`: `.error` models the
`ValueError` raised when no (truthy) identifier is given. -/
def matches_hashes (f : FileData) (sha1 sha512 : Option String) (size : Option Nat) :
    Except String Bool :=
  if !(truthyStr sha1 || truthyStr sha512 || truthyNat size) then
    .error "No file identifiers provided"
  else if truthyNat size && !(f.size == size.getD 0) then
    .ok false
  else if truthyStr sha1 && !(sha1.getD "" == f.sha1) then
    .ok false
  else if truthyStr sha512 then
    .ok (sha512.getD "" == f.sha512)
  else
    .ok true

/-! ## The Modrinth API data (source lines 189–232)

`GET /project/{id}/version` returns a list of builds; the fields the
script consumes are modelled directly.  `date_published` is a natural
number ordered as the publication instants (the ISO strings the API
returns compare lexicographically in publication order). -/

/-- One element of a build's `files` array. -/
structure FileEntry where
  primary : Bool
  filename : String
  url : String
  size : Nat
  sha1 : String
  sha512 : String
  deriving DecidableEq, Repr

/-- One build of a mod as returned by the hosting API. -/
structure Build where
  game_versions : List String
  loaders : List String
  version_type : String
  date_published : Nat
  files : List FileEntry
  deriving DecidableEq, Repr

/-- Lines 200–205 / 227–232: the file flagged primary, else the first
file.  `none` models the `IndexError` Python would raise on an empty
`files` array. -/
def primary_file (b : Build) : Option FileEntry :=
  match b.files.filter (fun x => x.primary) with
  | f :: _ => some f
  | [] => b.files.head?

/-- Lines 197–206: the primary filename of every build of the mod. -/
def all_filenames (builds : List Build) : Option (List String) :=
  builds.mapM (fun b => (primary_file b).map (fun f => f.filename))

/-- The `ValueError` message of lines 220–224. -/
def notFoundMsg (display_name version : String) (enforce_release : Bool) : String :=
  "Cannot find " ++ display_name ++ " for " ++ version ++
    (if enforce_release then " among full releases" else ", including alpha/beta/prereleases")

/-- Lines 211–232: filter by game version and loader, record availability
before the stability filter, optionally keep only releases, then pick the
most recently published survivor.  `.error (msg, flag)` models the
`ValueError(msg, any_available)` of lines 220–224. -/
def select_build (mod_json : List Build) (display_name version loader : String)
    (enforce_release : Bool) : Except (String × Bool) Build :=
  let matching :=
    mod_json.filter (fun x => x.game_versions.contains version && x.loaders.contains loader)
  let any_available := !matching.isEmpty
  let matching := if enforce_release then matching.filter (fun x => x.version_type == "release") else matching
  match (matching.map (fun x => x.date_published)).max? with
  | none => .error (notFoundMsg display_name version enforce_release, any_available)
  | some t =>
    match (matching.filter (fun x => x.date_published == t)).head? with
    | some b => .ok b
    | none => .error (notFoundMsg display_name version enforce_release, any_available)

/-! ## The filesystem and the network

The mods folder is an association list from filename to the digest/size
identity of the file's bytes, in directory-listing order.  The network is
a function from URL to the bytes actually delivered (`none` = HTTP
error), and `locked` lists the filenames whose `os.remove` raises
`OSError`. -/

/-- The mods directory: filenames with the identities of their contents. -/
abbrev FS := List (String × FileData)

/-- The external world: what each URL download delivers, and which
filenames cannot be removed. -/
structure Env where
  net : String → Option FileData
  locked : List String

/-- `os.path.isfile` / reading a file: first entry with the given name. -/
def lookupFile : FS → String → Option FileData
  | [], _ => none
  | (m, e) :: fs, n => if m = n then some e else lookupFile fs n

/-- `open(path, "wb")` + write: replace in place, or append a new entry. -/
def setFile : FS → String → FileData → FS
  | [], n, d => [(n, d)]
  | (m, e) :: fs, n, d => if m = n then (n, d) :: fs else (m, e) :: setFile fs n d

/-- `os.remove`: drop the entry with the given name. -/
def removeFile : FS → String → FS
  | [], _ => []
  | (m, e) :: fs, n => if m = n then fs else (m, e) :: removeFile fs n

/-- The identity of the zero-byte file `open(path, "wb")` creates before
any bytes arrive. -/
def emptyFileData : FileData := ⟨"sha1-of-empty", "sha512-of-empty", 0⟩

/-- Lines 262–265: remove the old versions one by one; `true` in the
result means an `OSError` was raised there (locked or missing file), at
which point the loop is abandoned. -/
def remove_old_loop (locked : List String) : List String → FS → FS × Bool
  | [], fs => (fs, false)
  | n :: ns, fs =>
    if locked.contains n || (lookupFile fs n).isNone then (fs, true)
    else remove_old_loop locked ns (removeFile fs n)

/-! ## The installer (source lines 189–265) -/

/-- Every exception `download_modrinth_mod` can propagate. -/
inductive Exc where
  /-- The `ValueError(msg, any_available)` of lines 220–224. -/
  | notFound (msg : String) (anyAvailable : Bool)
  /-- The `ValueError` from `matches_hashes` (one-argument). -/
  | noIdentifiers (msg : String)
  /-- `DownloadError` of line 259. -/
  | downloadError (msg : String)
  /-- `requests.HTTPError` from `raise_for_status` on the file download. -/
  | httpError (msg : String)
  /-- `OSError` from `os.remove` in the old-version cleanup. -/
  | osError (msg : String)
  /-- `IndexError` from `files[0]` on an empty files array. -/
  | indexError
  deriving DecidableEq, Repr

/-- `skipped`/`installed`: which branch of lines 239–259 completed. -/
inductive Outcome where
  | skipped
  | installed
  deriving DecidableEq, Repr

/-- The observable result of one `download_modrinth_mod` call: the
outcome or exception, the mods directory afterwards, the URLs the mod
file was downloaded from, and the number of WARNING-level logs. -/
structure DlResult where
  result : Except Exc Outcome
  fs : FS
  downloads : List String
  warnings : Nat
  deriving Repr

/-- Lines 261–265, entered from both the skip and the install branch. -/
def finish_install (env : Env) (outcome : Outcome) (fs : FS) (oldversions : List String)
    (downloads : List String) (warnings : Nat) : DlResult :=
  match remove_old_loop env.locked oldversions fs with
  | (fs2, false) => ⟨.ok outcome, fs2, downloads, warnings⟩
  | (fs2, true) => ⟨.error (.osError "old version could not be removed"), fs2, downloads, warnings⟩

/-- Lines 253–259: the delivered bytes are on disk; re-verify them, and
on mismatch delete the corrupt file and raise `DownloadError`. -/
def write_and_verify (env : Env) (pf : FileEntry) (fs1 : FS) (oldversions : List String)
    (warnings : Nat) (d : FileData) : DlResult :=
  let fs2 := setFile fs1 pf.filename d
  match matches_hashes d (some pf.sha1) (some pf.sha512) (some pf.size) with
  | .error m => ⟨.error (.noIdentifiers m), fs2, [pf.url], warnings⟩
  | .ok true => finish_install env .installed fs2 oldversions [pf.url] warnings
  | .ok false =>
    if env.locked.contains pf.filename then
      ⟨.error (.osError "corrupt download could not be removed"), fs2, [pf.url], warnings⟩
    else
      ⟨.error (.downloadError "Download failed."), removeFile fs2 pf.filename, [pf.url], warnings⟩

/-- Lines 246–259: truncate the target file (`open(path, "wb")` happens
before the GET), fetch the bytes, then write and re-verify. -/
def do_download (env : Env) (pf : FileEntry) (fs : FS) (oldversions : List String)
    (warnings : Nat) : DlResult :=
  let fs1 := setFile fs pf.filename emptyFileData
  match env.net pf.url with
  | none => ⟨.error (.httpError "file download failed"), fs1, [pf.url], warnings⟩
  | some d => write_and_verify env pf fs1 oldversions warnings d

/-- Lines 239–259 when a file already exists at the target path: skip if
it verifies (then remove "old versions"), else warn, drop the name from
`oldversions` and overwrite by downloading. -/
def verify_existing (env : Env) (pf : FileEntry) (fs : FS) (oldversions : List String)
    (fd : FileData) : DlResult :=
  match matches_hashes fd (some pf.sha1) (some pf.sha512) (some pf.size) with
  | .error m => ⟨.error (.noIdentifiers m), fs, [], 0⟩
  | .ok true =>
    -- lines 239–240 then 261–265: skip, then remove "old versions"
    finish_install env .skipped fs oldversions [] 0
  | .ok false =>
    -- lines 243–245: overwrite warning, drop the name from oldversions
    do_download env pf fs (oldversions.erase pf.filename) 1

/-- Lines 237–265: the skip check against the selected build's primary
file, followed by download-and-verify or by the old-version removal. -/
def install_phase (env : Env) (pf : FileEntry) (fs : FS) (oldversions : List String) : DlResult :=
  match lookupFile fs pf.filename with
  | some fd => verify_existing env pf fs oldversions fd
  | none => do_download env pf fs oldversions 0

/-- Lines 227–235: pick the chosen build's primary file, then install. -/
def with_build (env : Env) (fs : FS) (oldversions : List String) (chosen : Build) : DlResult :=
  match primary_file chosen with
  | none => ⟨.error .indexError, fs, [], 0⟩
  | some pf => install_phase env pf fs oldversions

/-- Lines 197–265 of `download_modrinth_mod`, from the parsed API
response onward (the `GET /project/{id}/version` call itself is the
caller's collaborator and its parsed list is the `mod_json` argument).
`oldversions` of lines 207–209 is the directory names that appear among
the mod's primary filenames. -/
def download_modrinth_mod (env : Env) (mod_json : List Build)
    (display_name version loader : String) (fs : FS) (enforce_release : Bool) : DlResult :=
  match all_filenames mod_json with
  | none => ⟨.error .indexError, fs, [], 0⟩
  | some filenames =>
    match select_build mod_json display_name version loader enforce_release with
    | .error (msg, flag) => ⟨.error (.notFound msg flag), fs, [], 0⟩
    | .ok chosen =>
      with_build env fs ((fs.map (fun p => p.1)).filter (fun x => filenames.contains x)) chosen

/-! ## The fallback ladder (source lines 426–463) -/

/-- How the while-loop finished for one mod. -/
inductive ModResult where
  /-- `break` after a successful `download_modrinth_mod` call. -/
  | ok (o : Outcome)
  /-- `break` after an ERROR-level log. -/
  | failed
  /-- `break` after the OSError cleanup WARNING of lines 460–463. -/
  | cleanupWarned
  deriving DecidableEq, Repr

/-- What one iteration of the while-loop decides. -/
inductive StepOut where
  /-- The loop breaks with this per-mod result. -/
  | done (r : ModResult)
  /-- The loop continues with this version and stability mode. -/
  | next (version : String) (enforce : Bool)
  /-- The Python process would crash here (uncaught exception, or the
  handler itself raising: `e.args[1]` on a one-argument `ValueError`,
  or `iterator_version = None` after a fall-through downstep). -/
  | crash
  deriving DecidableEq, Repr

/-- Result of one iteration, with the log counter increments. -/
structure StepRes where
  out : StepOut
  fs : FS
  warnings : Nat
  errors : Nat
  deriving Repr

/-- The flag of a `ValueError(msg, any_available)` result, if that is
what the call produced. -/
def notFoundFlag : Except Exc Outcome → Option Bool
  | .error (.notFound _ f) => some f
  | _ => none

/-- One iteration of the while-loop of lines 428–463. -/
def ladder_step (env : Env) (mod_json : List Build) (display_name version loader : String)
    (enforce_release : Bool) (fs : FS) : StepRes :=
  let dl := download_modrinth_mod env mod_json display_name version loader fs enforce_release
  match dl.result with
  | .ok o => ⟨.done (.ok o), dl.fs, dl.warnings, 0⟩
  | .error (.notFound _ flag) =>
    -- line 434: the message is logged at WARNING level
    if enforce_release && flag then
      ⟨.next version false, dl.fs, dl.warnings + 1, 0⟩
    else
      match downstep_version version with
      | .ok (some v2) => ⟨.next v2 true, dl.fs, dl.warnings + 1, 0⟩
      | .ok none => ⟨.crash, dl.fs, dl.warnings + 1, 0⟩
      | .error _ => ⟨.done .failed, dl.fs, dl.warnings + 1, 1⟩
  | .error (.downloadError _) => ⟨.done .failed, dl.fs, dl.warnings, 1⟩
  | .error (.httpError _) => ⟨.done .failed, dl.fs, dl.warnings, 1⟩
  | .error (.osError _) => ⟨.done .cleanupWarned, dl.fs, dl.warnings + 1, 0⟩
  | .error (.noIdentifiers _) => ⟨.crash, dl.fs, dl.warnings, 0⟩
  | .error .indexError => ⟨.crash, dl.fs, dl.warnings, 0⟩

/-- A full run of the while-loop for one mod: the attempts made (version
and stability mode of each `download_modrinth_mod` call), the final
directory state, the per-mod result (`none` if the fuel ran out or the
process would have crashed), and the log counter totals. -/
structure RunOut where
  attempts : List (String × Bool)
  fs : FS
  result : Option ModResult
  warnings : Nat
  errors : Nat
  deriving Repr

/-- The while-loop of lines 426–463, starting from a given version and
stability mode; `fuel` bounds the number of iterations. -/
def ladder_run (env : Env) (mod_json : List Build) (display_name loader : String) :
    Nat → String → Bool → FS → RunOut
  | 0, _, _, fs => ⟨[], fs, none, 0, 0⟩
  | fuel + 1, version, enforce_release, fs =>
    let st := ladder_step env mod_json display_name version loader enforce_release fs
    match st.out with
    | .done r => ⟨[(version, enforce_release)], st.fs, some r, st.warnings, st.errors⟩
    | .crash => ⟨[(version, enforce_release)], st.fs, none, st.warnings, st.errors⟩
    | .next v2 en2 =>
      let rest := ladder_run env mod_json display_name loader fuel v2 en2 st.fs
      ⟨(version, enforce_release) :: rest.attempts, rest.fs, rest.result,
        st.warnings + rest.warnings, st.errors + rest.errors⟩

/-- One configured mod reference. -/
structure ModRef where
  id : String
  displayName : String
  site : String
  deriving DecidableEq, Repr

/-- The mods loop of lines 415–466: every mod is processed in turn,
whatever the previous mods' outcomes; an unsupported site is reported
and the loop continues. -/
def run_mods (env : Env) (api : String → List Build) (loader : String) (fuel : Nat)
    (version : String) : List ModRef → FS → List (Option ModResult) × FS
  | [], fs => ([], fs)
  | m :: ms, fs =>
    if m.site == "modrinth" then
      let r := ladder_run env (api m.id) m.displayName loader fuel version true fs
      let rest := run_mods env api loader fuel version ms r.fs
      (r.result :: rest.1, rest.2)
    else
      let rest := run_mods env api loader fuel version ms fs
      (some .failed :: rest.1, rest.2)

/-! ## Concrete scenario data

Small concrete worlds (API responses, directories, networks) used to
evaluate the embedded installer and ladder on specific inputs. -/

/-- A network that always fails and a filesystem with nothing locked. -/
def c1Env : Env := ⟨fun _ => none, []⟩

/-- The build whose file is already present and verified. -/
def c1New : Build := ⟨["1.20.2"], ["fabric"], "release", 9,
  [⟨true, "modX-1.20.2.jar", "u2", 10, "aaa", "bbb"⟩]⟩

/-- An older build of the same mod. -/
def c1Old : Build := ⟨["1.20"], ["fabric"], "release", 3,
  [⟨true, "modX-1.20.jar", "u1", 7, "ccc", "ddd"⟩]⟩

/-- Mods directory holding the verified current file and an old version. -/
def c1Fs : FS := [("modX-1.20.2.jar", ⟨"aaa", "bbb", 10⟩), ("modX-1.20.jar", ⟨"ccc", "ddd", 7⟩)]

/-- A network that always fails and a filesystem with nothing locked. -/
def c2Env : Env := ⟨fun _ => none, []⟩

/-- A single build whose file is already present and verified. -/
def c2B : Build := ⟨["1.20"], ["fabric"], "release", 5,
  [⟨true, "modY-1.20.jar", "u", 10, "eee", "fff"⟩]⟩

/-- Mods directory holding exactly the verified file. -/
def c2Fs : FS := [("modY-1.20.jar", ⟨"eee", "fff", 10⟩)]

/-- A network that always fails and a filesystem with nothing locked. -/
def c3Env : Env := ⟨fun _ => none, []⟩

/-- A candidate set with a release only at "1.20" (= V-2 for V = "1.20.2"). -/
def c3Bld : Build := ⟨["1.20"], ["fabric"], "release", 5,
  [⟨true, "modZ-1.20.jar", "u", 10, "aaa", "bbb"⟩]⟩

/-- Mods directory already holding the "1.20" build's verified file. -/
def c3Fs : FS := [("modZ-1.20.jar", ⟨"aaa", "bbb", 10⟩)]

/-- Two downsteps below `verStr3 a b (k+2)`: `a.b.k`, collapsed to `a.b`
when `k = 0`. -/
def c3Target (a b k : Nat) : String := if k = 0 then verStr2 a b else verStr3 a b k

/-- A single release build available only at `c3Target a b k`. -/
def c3ScenBuild (a b k dp : Nat) (loader : String) (pf : FileEntry) : Build :=
  ⟨[c3Target a b k], [loader], "release", dp, [pf]⟩

/-- A directory already holding `pf`'s file with matching identity. -/
def c3ScenFs (pf : FileEntry) : FS := [(pf.filename, ⟨pf.sha1, pf.sha512, pf.size⟩)]

/-- A network that always fails and a filesystem with nothing locked. -/
def c4Env : Env := ⟨fun _ => none, []⟩

/-- A candidate set with only a beta build at "1.20.2". -/
def c4Pre : Build := ⟨["1.20.2"], ["fabric"], "beta", 5,
  [⟨true, "p.jar", "u", 1, "h1", "h2"⟩]⟩

/-- A one-mod batch. -/
def c4Mods : List ModRef := [⟨"i", "M", "modrinth"⟩]

/-- A network that delivers bytes that match nothing. -/
def c5Env : Env := ⟨fun _ => some ⟨"x", "y", 3⟩, []⟩

/-- The build selected for installation. -/
def c5New : Build := ⟨["1.20"], ["fabric"], "release", 9,
  [⟨true, "new.jar", "uN", 10, "aaa", "bbb"⟩]⟩

/-- An older build of the same mod whose file is on disk. -/
def c5Old : Build := ⟨["1.19"], ["fabric"], "release", 3,
  [⟨true, "old.jar", "uO", 7, "ccc", "ddd"⟩]⟩

/-- Mods directory holding only the old version's file. -/
def c5Fs : FS := [("old.jar", ⟨"ccc", "ddd", 7⟩)]

/-- A network delivering the correct new file, with the oldest old
version's file locked against removal. -/
def c6Env : Env := ⟨fun _ => some ⟨"aaa", "bbb", 10⟩, ["m-1.18.jar"]⟩

/-- The build selected for installation. -/
def c6New : Build := ⟨["1.20"], ["fabric"], "release", 9,
  [⟨true, "m-1.20.jar", "u20", 10, "aaa", "bbb"⟩]⟩

/-- First old build; its file on disk cannot be removed. -/
def c6Old1 : Build := ⟨["1.18"], ["fabric"], "release", 3,
  [⟨true, "m-1.18.jar", "u18", 7, "ccc", "ddd"⟩]⟩

/-- Second old build; its file on disk is removable. -/
def c6Old2 : Build := ⟨["1.19"], ["fabric"], "release", 5,
  [⟨true, "m-1.19.jar", "u19", 8, "eee", "fff"⟩]⟩

/-- Mods directory holding both old versions' files. -/
def c6Fs : FS := [("m-1.18.jar", ⟨"ccc", "ddd", 7⟩), ("m-1.19.jar", ⟨"eee", "fff", 8⟩)]

/-! ## Lemmas about decimal rendering -/

theorem digitVal_digitChar {d : Nat} (h : d < 10) : digitVal (digitChar d) = d := by
  interval_cases d <;> decide

theorem isDigit_digitChar : ∀ d : Nat, (digitChar d).isDigit = true
  | 0 => rfl
  | 1 => rfl
  | 2 => rfl
  | 3 => rfl
  | 4 => rfl
  | 5 => rfl
  | 6 => rfl
  | 7 => rfl
  | 8 => rfl
  | _ + 9 => rfl

theorem natStrAux_eq (n : Nat) :
    ∀ f f', n < f → n < f' → natStrAux f n = natStrAux f' n := by
  induction n using Nat.strong_induction_on with
  | _ n ih =>
    intro f f' hf hf'
    match f, f' with
    | f + 1, f' + 1 =>
      by_cases h10 : n < 10
      · simp [natStrAux, h10]
      · have hd : n / 10 < n := Nat.div_lt_self (by omega) (by omega)
        simp only [natStrAux, if_neg h10]
        rw [ih (n / 10) hd f f' (by omega) (by omega)]

theorem natStr_eq (n : Nat) :
    natStr n = if n < 10 then [digitChar n] else natStr (n / 10) ++ [digitChar (n % 10)] := by
  show natStrAux (n + 1) n = _
  by_cases h10 : n < 10
  · simp [natStrAux, h10]
  · have hd : n / 10 < n := Nat.div_lt_self (by omega) (by omega)
    simp only [natStrAux, if_neg h10]
    rw [natStrAux_eq (n / 10) n (n / 10 + 1) (by omega) (by omega)]
    rfl

theorem natStr_ne_nil (n : Nat) : natStr n ≠ [] := by
  rw [natStr_eq]
  by_cases h10 : n < 10 <;> simp [h10]

theorem isDigit_of_mem_natStr (n : Nat) : ∀ c ∈ natStr n, c.isDigit = true := by
  induction n using Nat.strong_induction_on with
  | _ n ih =>
    intro c hc
    rw [natStr_eq] at hc
    by_cases h10 : n < 10
    · rw [if_pos h10] at hc
      simp at hc
      subst hc
      exact isDigit_digitChar n
    · rw [if_neg h10] at hc
      have hd : n / 10 < n := Nat.div_lt_self (by omega) (by omega)
      rcases List.mem_append.mp hc with h | h
      · exact ih (n / 10) hd c h
      · simp at h
        subst h
        exact isDigit_digitChar (n % 10)

theorem natStr_dotfree (n : Nat) : ∀ c ∈ natStr n, ¬(c = '.') := by
  intro c hc hdot
  subst hdot
  have := isDigit_of_mem_natStr n _ hc
  simp [Char.isDigit] at this

theorem isnumericB_natStr (n : Nat) : isnumericB (natStr n) = true := by
  rcases hn : natStr n with _ | ⟨c, cs⟩
  · exact absurd hn (natStr_ne_nil n)
  · simp only [isnumericB, List.isEmpty_cons, Bool.not_false, Bool.true_and]
    rw [List.all_eq_true]
    intro c hc
    rw [← hn] at hc
    exact isDigit_of_mem_natStr n c hc

theorem digitsVal_append_singleton (l : List Char) (c : Char) :
    digitsVal (l ++ [c]) = 10 * digitsVal l + digitVal c := by
  simp [digitsVal, List.foldl_append]

theorem digitsVal_natStr (n : Nat) : digitsVal (natStr n) = n := by
  induction n using Nat.strong_induction_on with
  | _ n ih =>
    rw [natStr_eq]
    by_cases h10 : n < 10
    · rw [if_pos h10]
      show 10 * 0 + digitVal (digitChar n) = n
      rw [digitVal_digitChar h10]
      omega
    · have hd : n / 10 < n := Nat.div_lt_self (by omega) (by omega)
      rw [if_neg h10, digitsVal_append_singleton, ih (n / 10) hd,
        digitVal_digitChar (Nat.mod_lt n (by omega))]
      omega

theorem natStr_eq_zero_iff (n : Nat) : natStr n = ['0'] ↔ n = 0 := by
  constructor
  · intro h
    have h2 := digitsVal_natStr n
    rw [h] at h2
    simpa using h2.symm
  · intro h
    subst h
    rw [natStr_eq]
    rfl

/-! ## Lemmas about dot-splitting -/

theorem splitDot_append (xs : List Char) (hxs : ∀ c ∈ xs, ¬(c = '.')) :
    ∀ ys r rs, splitDot ys = r :: rs → splitDot (xs ++ ys) = (xs ++ r) :: rs := by
  induction xs with
  | nil => intro ys r rs h; simpa using h
  | cons c cs ih =>
    intro ys r rs h
    have hc : ¬(c = '.') := hxs c (by simp)
    have hcs : ∀ x ∈ cs, ¬(x = '.') := fun x hx => hxs x (by simp [hx])
    simp only [List.cons_append, splitDot, if_neg hc]
    rw [List.append_eq, ih hcs ys r rs h]

theorem splitDot_single (xs : List Char) (hxs : ∀ c ∈ xs, ¬(c = '.')) :
    splitDot xs = [xs] := by
  have h := splitDot_append xs hxs [] [] [] rfl
  simpa using h

theorem splitDot_dot_cons (t : List Char) : splitDot ('.' :: t) = [] :: splitDot t := by
  simp [splitDot]

theorem splitDot_verStr3 (a b c : Nat) :
    splitDot (verStr3 a b c).data = [natStr a, natStr b, natStr c] := by
  show splitDot (natStr a ++ '.' :: (natStr b ++ '.' :: natStr c)) =
    [natStr a, natStr b, natStr c]
  have h3 : splitDot (natStr c) = [natStr c] := splitDot_single _ (natStr_dotfree c)
  have h2 : splitDot (natStr b ++ '.' :: natStr c) = [natStr b, natStr c] := by
    have h := splitDot_append (natStr b) (natStr_dotfree b) ('.' :: natStr c) [] [natStr c]
      (by rw [splitDot_dot_cons, h3])
    simpa using h
  have h1 := splitDot_append (natStr a) (natStr_dotfree a)
    ('.' :: (natStr b ++ '.' :: natStr c)) [] [natStr b, natStr c]
    (by rw [splitDot_dot_cons, h2])
  simp only [List.append_nil] at h1
  exact h1

theorem splitDot_verStr2 (a b : Nat) :
    splitDot (verStr2 a b).data = [natStr a, natStr b] := by
  show splitDot (natStr a ++ '.' :: natStr b) = [natStr a, natStr b]
  have h2 : splitDot (natStr b) = [natStr b] := splitDot_single _ (natStr_dotfree b)
  have h1 := splitDot_append (natStr a) (natStr_dotfree a) ('.' :: natStr b) [] [natStr b]
    (by rw [splitDot_dot_cons, h2])
  simp only [List.append_nil] at h1
  exact h1

/-! ## Lemmas about `downstep_version` -/

theorem downstep_verStr3 (a b c : Nat) (hc : c ≠ 0) :
    downstep_version (verStr3 a b c) =
      .ok (some (if c = 1 then verStr2 a b else verStr3 a b (c - 1))) := by
  unfold downstep_version
  rw [splitDot_verStr3]
  have hall : ([natStr a, natStr b, natStr c]).all isnumericB = true := by
    simp [isnumericB_natStr]
  have hz : ¬(natStr c = ['0']) := by
    rw [natStr_eq_zero_iff]
    exact hc
  unfold downstep_core
  rw [hall]
  simp only [Bool.not_true, Bool.false_eq_true, if_false, if_neg hz, digitsVal_natStr]
  by_cases h1 : c = 1
  · subst h1
    norm_num
    rfl
  · have hne : ¬((c : Int) - 1 = 0) := by omega
    rw [if_neg hne, if_neg h1]
    unfold intChars
    have hnn : ¬((c : Int) - 1 < 0) := by omega
    rw [if_neg hnn]
    have ht : ((c : Int) - 1).toNat = c - 1 := by omega
    rw [ht]
    rfl

theorem downstep_verStr2 (a b : Nat) :
    downstep_version (verStr2 a b) =
      .error (verStr2 a b ++ " is a base version and cannot be decremented",
        verStr2 a b ++ ".x") := by
  unfold downstep_version
  rw [splitDot_verStr2]
  have hall : ([natStr a, natStr b]).all isnumericB = true := by
    simp [isnumericB_natStr]
  unfold downstep_core
  rw [hall]
  rfl

theorem downstep_verStr3_zero (a b : Nat) :
    downstep_version (verStr3 a b 0) =
      .error (verStr2 a b ++ " is a base version and cannot be decremented",
        verStr2 a b ++ ".x") := by
  unfold downstep_version
  rw [splitDot_verStr3]
  have hall : ([natStr a, natStr b, natStr 0]).all isnumericB = true := by
    simp [isnumericB_natStr]
  have hz : natStr 0 = ['0'] := (natStr_eq_zero_iff 0).mpr rfl
  unfold downstep_core
  rw [hall]
  simp only [Bool.not_true, Bool.false_eq_true, if_false, hz, if_pos rfl, if_true]
  rfl

theorem downstep_nonnumeric (v : String)
    (h : (splitDot v.data).all isnumericB = false) :
    downstep_version v =
      .error (v ++ " is a snapshot, prerelease, release candidate, or April Fool's update, and cannot be decremented.", v) := by
  unfold downstep_version downstep_core
  rw [h]
  rfl

/-! ## Claim theorems: the hash verifier and `downstep_version` -/

/-- C8: for a three-component all-numeric version with nonzero third
component, `downstep_version` decrements the third component, collapsing
a resulting zero to the two-component base; it raises for two-component
versions, for a third component that is already zero, and for any input
with a non-numeric component. -/
theorem c8_downstep_spec :
    (∀ a b c : Nat, c ≠ 0 →
      downstep_version (verStr3 a b c) =
        .ok (some (if c = 1 then verStr2 a b else verStr3 a b (c - 1)))) ∧
    (∀ a b : Nat, ∃ e, downstep_version (verStr2 a b) = .error e) ∧
    (∀ a b : Nat, ∃ e, downstep_version (verStr3 a b 0) = .error e) ∧
    (∀ v : String, (splitDot v.data).all isnumericB = false →
      ∃ e, downstep_version v = .error e) :=
  ⟨fun a b c hc => downstep_verStr3 a b c hc,
   fun a b => ⟨_, downstep_verStr2 a b⟩,
   fun a b => ⟨_, downstep_verStr3_zero a b⟩,
   fun v h => ⟨_, downstep_nonnumeric v h⟩⟩

/-- Witness for C8 at concrete inputs: "1.20.2" steps down to "1.20.1"
and "1.20w.3" is rejected. -/
theorem c8_downstep_spec_witness :
    downstep_version (verStr3 1 20 2) =
      .ok (some (if 2 = 1 then verStr2 1 20 else verStr3 1 20 (2 - 1))) ∧
    (∃ e, downstep_version "1.20w.3" = .error e) :=
  ⟨c8_downstep_spec.1 1 20 2 (by decide),
   c8_downstep_spec.2.2.2 "1.20w.3" (by decide)⟩

/-- C9: an all-numeric version whose dot-split has one component, or four
or more, makes `downstep_version` fall through the component-count match:
it neither returns a version string nor raises, but returns `None`. -/
theorem c9_downstep_falls_through (v : String)
    (hnum : (splitDot v.data).all isnumericB = true)
    (hlen : (splitDot v.data).length = 1 ∨ 4 ≤ (splitDot v.data).length) :
    downstep_version v = .ok none := by
  unfold downstep_version downstep_core
  rcases hs : splitDot v.data with _ | ⟨x, _ | ⟨y, _ | ⟨z, _ | ⟨w, t⟩⟩⟩⟩ <;>
      rw [hs] at hnum hlen <;> rw [hnum] <;> simp at hlen ⊢

/-- Witness for C9 at the concrete input "21". -/
theorem c9_downstep_falls_through_witness : downstep_version "21" = .ok none :=
  c9_downstep_falls_through "21" (by decide) (by decide)

/-- Counterexample to C7 as stated: a supplied expected size of `0` that
differs from the file's size (5) does not make the verifier return false —
the falsy `0` is ignored and the matching SHA-1 makes it return true. -/
theorem c7_counterexample :
    matches_hashes ⟨"aa", "bb", 5⟩ (some "aa") none (some 0) = .ok true ∧ (0 : Nat) ≠ 5 :=
  ⟨rfl, by decide⟩

/-- C7 (amended): with "supplied" read as Python-truthy (a non-empty hash
string, a nonzero size): the verifier errors when no truthy identifier is
supplied; a truthy size that differs from the file's size gives false;
otherwise the result is true exactly when every truthy identifier
matches, and false exactly when some truthy identifier mismatches. -/
theorem c7_matches_hashes_spec (f : FileData) (s1 s512 : Option String) (sz : Option Nat) :
    (¬(truthyStr s1 = true ∨ truthyStr s512 = true ∨ truthyNat sz = true) →
      matches_hashes f s1 s512 sz = .error "No file identifiers provided") ∧
    (truthyNat sz = true → f.size ≠ sz.getD 0 →
      matches_hashes f s1 s512 sz = .ok false) ∧
    ((truthyStr s1 = true ∨ truthyStr s512 = true ∨ truthyNat sz = true) →
      (truthyNat sz = true → f.size = sz.getD 0) →
      (matches_hashes f s1 s512 sz = .ok true ↔
        ((truthyStr s1 = true → s1.getD "" = f.sha1) ∧
         (truthyStr s512 = true → s512.getD "" = f.sha512))) ∧
      (matches_hashes f s1 s512 sz = .ok false ↔
        ((truthyStr s1 = true ∧ s1.getD "" ≠ f.sha1) ∨
         (truthyStr s512 = true ∧ s512.getD "" ≠ f.sha512)))) := by
  refine ⟨fun h => ?_, fun hsz hne => ?_, fun hsome hszeq => ?_⟩
  · have h1 : truthyStr s1 = false := by
      cases h1 : truthyStr s1
      · rfl
      · exact absurd (Or.inl h1) h
    have h2 : truthyStr s512 = false := by
      cases h2 : truthyStr s512
      · rfl
      · exact absurd (Or.inr (Or.inl h2)) h
    have h3 : truthyNat sz = false := by
      cases h3 : truthyNat sz
      · rfl
      · exact absurd (Or.inr (Or.inr h3)) h
    simp [matches_hashes, h1, h2, h3]
  · have hne2 : (f.size == sz.getD 0) = false := by
      cases hq : f.size == sz.getD 0
      · rfl
      · exact absurd (by simpa using hq) hne
    simp [matches_hashes, hsz, hne2]
  · have hszguard : (truthyNat sz && !(f.size == sz.getD 0)) = false := by
      cases hn : truthyNat sz
      · rfl
      · rw [hszeq hn]
        simp
    cases h1 : truthyStr s1 <;> cases h2 : truthyStr s512
    · have h3 : truthyNat sz = true := by
        rcases hsome with h | h | h
        · rw [h1] at h
          exact absurd h (by simp)
        · rw [h2] at h
          exact absurd h (by simp)
        · exact h
      have hfs : f.size = sz.getD 0 := hszeq h3
      simp [matches_hashes, h1, h2, h3, hfs]
    · simp [matches_hashes, h1, h2, hszguard, beq_eq_false_iff_ne]
    · cases hq1 : s1.getD "" == f.sha1
      · have hp : ¬(s1.getD "" = f.sha1) := by
          intro he
          rw [he] at hq1
          simp at hq1
        simp [matches_hashes, h1, h2, hq1, hp, hszguard]
      · have hp : s1.getD "" = f.sha1 := eq_of_beq hq1
        simp [matches_hashes, h1, h2, hq1, hp, hszguard]
    · cases hq1 : s1.getD "" == f.sha1
      · have hp : ¬(s1.getD "" = f.sha1) := by
          intro he
          rw [he] at hq1
          simp at hq1
        simp [matches_hashes, h1, h2, hq1, hp, hszguard, beq_eq_false_iff_ne]
      · have hp : s1.getD "" = f.sha1 := eq_of_beq hq1
        simp [matches_hashes, h1, h2, hq1, hp, hszguard, beq_eq_false_iff_ne]

/-- Witness for C7 (amended): a file that matches its own identifiers
verifies true. -/
theorem c7_matches_hashes_spec_witness :
    matches_hashes ⟨"aa", "bb", 5⟩ (some "aa") none (some 5) = .ok true :=
  ((c7_matches_hashes_spec ⟨"aa", "bb", 5⟩ (some "aa") none (some 5)).2.2
    (by decide) (by decide)).1.mpr (by decide)

/-- C10: `matches_hashes` treats falsy identifiers as absent — supplying
only a size of `0` raises the no-identifiers error, and a supplied
empty-string SHA-1 or SHA-512 behaves exactly as if it were not supplied,
so it can never cause a false result on its own. -/
theorem c10_falsy_identifiers :
    (∀ f : FileData, matches_hashes f none none (some 0) = .error "No file identifiers provided") ∧
    (∀ (f : FileData) (s512 : Option String) (sz : Option Nat),
      matches_hashes f (some "") s512 sz = matches_hashes f none s512 sz) ∧
    (∀ (f : FileData) (s1 : Option String) (sz : Option Nat),
      matches_hashes f s1 (some "") sz = matches_hashes f s1 none sz) := by
  refine ⟨fun f => rfl, fun f s512 sz => ?_, fun f s1 sz => ?_⟩
  · simp [matches_hashes, truthyStr]
  · simp [matches_hashes, truthyStr]

/-! ## Lemmas about the filesystem model -/

theorem lookupFile_eq_none (fs : FS) (n : String) (h : n ∉ fs.map Prod.fst) :
    lookupFile fs n = none := by
  induction fs with
  | nil => rfl
  | cons p fs ih =>
    obtain ⟨m, e⟩ := p
    have hm : ¬(m = n) := fun he => h (by simp [he])
    simp only [lookupFile, if_neg hm]
    exact ih (fun hmem => h (by simp [hmem]))

theorem lookup_setFile_self (fs : FS) (n : String) (d : FileData) :
    lookupFile (setFile fs n d) n = some d := by
  induction fs with
  | nil => simp [setFile, lookupFile]
  | cons p fs ih =>
    obtain ⟨m, e⟩ := p
    by_cases hm : m = n
    · subst hm
      simp [setFile, lookupFile]
    · simp [setFile, hm, lookupFile, ih]

theorem lookup_setFile_ne (fs : FS) (n m : String) (d : FileData) (h : ¬(m = n)) :
    lookupFile (setFile fs n d) m = lookupFile fs m := by
  have hnm : ¬(n = m) := fun he => h he.symm
  induction fs with
  | nil => simp [setFile, lookupFile, hnm]
  | cons p fs ih =>
    obtain ⟨k, e⟩ := p
    by_cases hk : k = n
    · subst hk
      simp [setFile, lookupFile, hnm]
    · simp only [setFile, if_neg hk, lookupFile]
      by_cases hkm : k = m
      · simp [hkm]
      · simp [hkm, ih]

theorem lookup_removeFile_ne (fs : FS) (n m : String) (h : ¬(m = n)) :
    lookupFile (removeFile fs n) m = lookupFile fs m := by
  have hnm : ¬(n = m) := fun he => h he.symm
  induction fs with
  | nil => rfl
  | cons p fs ih =>
    obtain ⟨k, e⟩ := p
    by_cases hk : k = n
    · subst hk
      simp [removeFile, lookupFile, hnm]
    · simp only [removeFile, if_neg hk, lookupFile]
      by_cases hkm : k = m
      · simp [hkm]
      · simp [hkm, ih]

theorem lookup_removeFile_self (fs : FS) (n : String)
    (hnd : (fs.map Prod.fst).Nodup) : lookupFile (removeFile fs n) n = none := by
  induction fs with
  | nil => rfl
  | cons p fs ih =>
    obtain ⟨k, e⟩ := p
    rw [List.map_cons, List.nodup_cons] at hnd
    by_cases hk : k = n
    · subst hk
      simp only [removeFile, if_pos rfl]
      exact lookupFile_eq_none fs k hnd.1
    · simp only [removeFile, if_neg hk, lookupFile, if_neg hk]
      exact ih hnd.2

theorem setFile_setFile (fs : FS) (n : String) (d1 d2 : FileData) :
    setFile (setFile fs n d1) n d2 = setFile fs n d2 := by
  induction fs with
  | nil => simp [setFile]
  | cons p fs ih =>
    obtain ⟨k, e⟩ := p
    by_cases hk : k = n
    · subst hk
      simp [setFile]
    · simp only [setFile, if_neg hk]
      rw [ih]

theorem mem_names_setFile (fs : FS) (n m : String) (d : FileData) :
    m ∈ (setFile fs n d).map Prod.fst ↔ m = n ∨ m ∈ fs.map Prod.fst := by
  induction fs with
  | nil => simp [setFile]
  | cons p fs ih =>
    obtain ⟨k, e⟩ := p
    by_cases hk : k = n
    · subst hk
      have hset : setFile ((k, e) :: fs) k d = (k, d) :: fs := by
        simp [setFile]
      rw [hset]
      simp only [List.map_cons, List.mem_cons]
      tauto
    · simp only [setFile, if_neg hk, List.map_cons, List.mem_cons, ih]
      tauto

theorem nodup_names_setFile (fs : FS) (n : String) (d : FileData)
    (h : (fs.map Prod.fst).Nodup) : ((setFile fs n d).map Prod.fst).Nodup := by
  induction fs with
  | nil => simp [setFile]
  | cons p fs ih =>
    obtain ⟨k, e⟩ := p
    rw [List.map_cons, List.nodup_cons] at h
    by_cases hk : k = n
    · subst hk
      have hset : setFile ((k, e) :: fs) k d = (k, d) :: fs := by
        simp [setFile]
      rw [hset, List.map_cons, List.nodup_cons]
      exact ⟨h.1, h.2⟩
    · simp only [setFile, if_neg hk, List.map_cons, List.nodup_cons]
      refine ⟨fun hmem => ?_, ih h.2⟩
      rcases (mem_names_setFile fs n k d).mp hmem with he | he
      · exact hk he
      · exact h.1 he

/-! ## Unfolding lemmas for the installer -/

theorem primary_file_single (b : Build) (pf : FileEntry) (h : b.files = [pf])
    (hp : pf.primary = true) : primary_file b = some pf := by
  unfold primary_file
  rw [h]
  simp [List.filter, hp]

theorem all_filenames_single (b : Build) (pf : FileEntry) (hb : primary_file b = some pf) :
    all_filenames [b] = some [pf.filename] := by
  simp [all_filenames, List.mapM, List.mapM.loop, hb]

theorem with_build_eq (env : Env) (fs : FS) (oldv : List String) (chosen : Build)
    (pf : FileEntry) (hpf : primary_file chosen = some pf) :
    with_build env fs oldv chosen = install_phase env pf fs oldv := by
  unfold with_build
  rw [hpf]

theorem install_phase_fresh (env : Env) (pf : FileEntry) (fs : FS) (oldv : List String)
    (hlook : lookupFile fs pf.filename = none) :
    install_phase env pf fs oldv = do_download env pf fs oldv 0 := by
  unfold install_phase
  rw [hlook]

theorem install_phase_existing (env : Env) (pf : FileEntry) (fs : FS) (oldv : List String)
    (fd : FileData) (hlook : lookupFile fs pf.filename = some fd) :
    install_phase env pf fs oldv = verify_existing env pf fs oldv fd := by
  unfold install_phase
  rw [hlook]

theorem install_phase_overwrite (env : Env) (pf : FileEntry) (fs : FS) (oldv : List String)
    (fd : FileData) (hlook : lookupFile fs pf.filename = some fd)
    (hm : matches_hashes fd (some pf.sha1) (some pf.sha512) (some pf.size) = .ok false) :
    install_phase env pf fs oldv = do_download env pf fs (oldv.erase pf.filename) 1 := by
  rw [install_phase_existing env pf fs oldv fd hlook]
  unfold verify_existing
  rw [hm]

theorem install_phase_skip (env : Env) (pf : FileEntry) (fs : FS) (oldv : List String)
    (fd : FileData) (hlook : lookupFile fs pf.filename = some fd)
    (hm : matches_hashes fd (some pf.sha1) (some pf.sha512) (some pf.size) = .ok true) :
    install_phase env pf fs oldv = finish_install env .skipped fs oldv [] 0 := by
  rw [install_phase_existing env pf fs oldv fd hlook]
  unfold verify_existing
  rw [hm]

theorem do_download_delivered (env : Env) (pf : FileEntry) (fs : FS) (oldv : List String)
    (w : Nat) (d : FileData) (hnet : env.net pf.url = some d) :
    do_download env pf fs oldv w =
      write_and_verify env pf (setFile fs pf.filename emptyFileData) oldv w d := by
  unfold do_download
  rw [hnet]

theorem download_selected (env : Env) (json : List Build) (dn v loader : String) (fs : FS)
    (er : Bool) (fns : List String) (chosen : Build)
    (hfns : all_filenames json = some fns)
    (hsel : select_build json dn v loader er = .ok chosen) :
    download_modrinth_mod env json dn v loader fs er =
      with_build env fs ((fs.map (fun p => p.1)).filter (fun x => fns.contains x)) chosen := by
  unfold download_modrinth_mod
  rw [hfns, hsel]

theorem download_notFound (env : Env) (json : List Build) (dn v loader : String) (fs : FS)
    (er : Bool) (fns : List String) (m : String) (fl : Bool)
    (hfns : all_filenames json = some fns)
    (hsel : select_build json dn v loader er = .error (m, fl)) :
    download_modrinth_mod env json dn v loader fs er = ⟨.error (.notFound m fl), fs, [], 0⟩ := by
  unfold download_modrinth_mod
  rw [hfns, hsel]

theorem download_fresh (env : Env) (json : List Build) (dn v loader : String) (fs : FS)
    (er : Bool) (fns : List String) (chosen : Build) (pf : FileEntry)
    (hfns : all_filenames json = some fns)
    (hsel : select_build json dn v loader er = .ok chosen)
    (hpf : primary_file chosen = some pf)
    (hlook : lookupFile fs pf.filename = none) :
    download_modrinth_mod env json dn v loader fs er =
      do_download env pf fs ((fs.map (fun p => p.1)).filter (fun x => fns.contains x)) 0 := by
  rw [download_selected env json dn v loader fs er fns chosen hfns hsel,
    with_build_eq env fs _ chosen pf hpf, install_phase_fresh env pf fs _ hlook]

theorem download_overwrite (env : Env) (json : List Build) (dn v loader : String) (fs : FS)
    (er : Bool) (fns : List String) (chosen : Build) (pf : FileEntry) (fd : FileData)
    (hfns : all_filenames json = some fns)
    (hsel : select_build json dn v loader er = .ok chosen)
    (hpf : primary_file chosen = some pf)
    (hlook : lookupFile fs pf.filename = some fd)
    (hm : matches_hashes fd (some pf.sha1) (some pf.sha512) (some pf.size) = .ok false) :
    download_modrinth_mod env json dn v loader fs er =
      do_download env pf fs
        (((fs.map (fun p => p.1)).filter (fun x => fns.contains x)).erase pf.filename) 1 := by
  rw [download_selected env json dn v loader fs er fns chosen hfns hsel,
    with_build_eq env fs _ chosen pf hpf, install_phase_overwrite env pf fs _ fd hlook hm]

theorem download_skip (env : Env) (json : List Build) (dn v loader : String) (fs : FS)
    (er : Bool) (fns : List String) (chosen : Build) (pf : FileEntry) (fd : FileData)
    (hfns : all_filenames json = some fns)
    (hsel : select_build json dn v loader er = .ok chosen)
    (hpf : primary_file chosen = some pf)
    (hlook : lookupFile fs pf.filename = some fd)
    (hm : matches_hashes fd (some pf.sha1) (some pf.sha512) (some pf.size) = .ok true) :
    download_modrinth_mod env json dn v loader fs er =
      finish_install env .skipped fs
        ((fs.map (fun p => p.1)).filter (fun x => fns.contains x)) [] 0 := by
  rw [download_selected env json dn v loader fs er fns chosen hfns hsel,
    with_build_eq env fs _ chosen pf hpf, install_phase_skip env pf fs _ fd hlook hm]

/-! ## Claim theorems: the installer -/

/-- C1 (code bug): with the selected build's file already present and
verified, the outcome is skipped and no mod-file download happens, but
the code then deletes every name in `oldversions` — which still contains
both the old version's file and the just-verified file itself, leaving
the directory empty. -/
theorem c1_skip_path_deletes_files :
    (download_modrinth_mod c1Env [c1New, c1Old] "ModX" "1.20.2" "fabric" c1Fs true).result
      = .ok .skipped ∧
    (download_modrinth_mod c1Env [c1New, c1Old] "ModX" "1.20.2" "fabric" c1Fs true).downloads
      = [] ∧
    (download_modrinth_mod c1Env [c1New, c1Old] "ModX" "1.20.2" "fabric" c1Fs true).fs = [] :=
  ⟨rfl, rfl, rfl⟩

/-- C2 (code bug): on the skip path the verified pre-existing match is
not excluded from the old-version removal: the only copy on disk is
deleted although nothing replaced it. -/
theorem c2_verified_match_not_excluded :
    lookupFile c2Fs "modY-1.20.jar" = some ⟨"eee", "fff", 10⟩ ∧
    (download_modrinth_mod c2Env [c2B] "ModY" "1.20" "fabric" c2Fs true).result
      = .ok .skipped ∧
    (download_modrinth_mod c2Env [c2B] "ModY" "1.20" "fabric" c2Fs true).fs = [] :=
  ⟨rfl, rfl, rfl⟩

/-- C5: whenever the freshly downloaded file fails hash verification (and
its removal is not itself blocked), the corrupt file is deleted so
nothing remains at the target path, `DownloadError` is raised, and every
other file in the directory — in particular every old-version file — is
untouched. -/
theorem c5_corrupt_download (env : Env) (json : List Build) (dn v loader : String)
    (fs : FS) (er : Bool) (fns : List String) (chosen : Build) (pf : FileEntry) (d : FileData)
    (hnd : (fs.map Prod.fst).Nodup)
    (hfns : all_filenames json = some fns)
    (hsel : select_build json dn v loader er = .ok chosen)
    (hpf : primary_file chosen = some pf)
    (hskip : ∀ fd, lookupFile fs pf.filename = some fd →
      matches_hashes fd (some pf.sha1) (some pf.sha512) (some pf.size) = .ok false)
    (hnet : env.net pf.url = some d)
    (hver : matches_hashes d (some pf.sha1) (some pf.sha512) (some pf.size) = .ok false)
    (hlock : env.locked.contains pf.filename = false) :
    (download_modrinth_mod env json dn v loader fs er).result
      = .error (.downloadError "Download failed.") ∧
    lookupFile (download_modrinth_mod env json dn v loader fs er).fs pf.filename = none ∧
    ∀ n, ¬(n = pf.filename) →
      lookupFile (download_modrinth_mod env json dn v loader fs er).fs n = lookupFile fs n := by
  have hdd : ∀ oldv w, do_download env pf fs oldv w =
      ⟨.error (.downloadError "Download failed."),
        removeFile (setFile fs pf.filename d) pf.filename, [pf.url], w⟩ := by
    intro oldv w
    rw [do_download_delivered env pf fs oldv w d hnet]
    simp only [write_and_verify]
    rw [setFile_setFile, hver, hlock]
    rfl
  cases hl : lookupFile fs pf.filename with
  | none =>
    rw [download_fresh env json dn v loader fs er fns chosen pf hfns hsel hpf hl, hdd]
    refine ⟨rfl, ?_, ?_⟩
    · exact lookup_removeFile_self _ _ (nodup_names_setFile fs _ d hnd)
    · intro n hn
      rw [lookup_removeFile_ne _ _ _ hn, lookup_setFile_ne _ _ _ _ hn]
  | some fd =>
    rw [download_overwrite env json dn v loader fs er fns chosen pf fd hfns hsel hpf hl
      (hskip fd hl), hdd]
    refine ⟨rfl, ?_, ?_⟩
    · exact lookup_removeFile_self _ _ (nodup_names_setFile fs _ d hnd)
    · intro n hn
      rw [lookup_removeFile_ne _ _ _ hn, lookup_setFile_ne _ _ _ _ hn]

/-- Witness for C5: a corrupt delivery for the "new.jar" build raises
`DownloadError`, leaves nothing at "new.jar", and keeps "old.jar". -/
theorem c5_corrupt_download_witness :
    (download_modrinth_mod c5Env [c5New, c5Old] "M" "1.20" "fabric" c5Fs true).result
      = .error (.downloadError "Download failed.") ∧
    lookupFile (download_modrinth_mod c5Env [c5New, c5Old] "M" "1.20" "fabric" c5Fs true).fs
      "new.jar" = none ∧
    lookupFile (download_modrinth_mod c5Env [c5New, c5Old] "M" "1.20" "fabric" c5Fs true).fs
      "old.jar" = lookupFile c5Fs "old.jar" := by
  have h := c5_corrupt_download c5Env [c5New, c5Old] "M" "1.20" "fabric" c5Fs true
    ["new.jar", "old.jar"] c5New ⟨true, "new.jar", "uN", 10, "aaa", "bbb"⟩ ⟨"x", "y", 3⟩
    (by decide) rfl rfl rfl (fun fd hfd => by exact Option.noConfusion hfd) rfl rfl rfl
  exact ⟨h.1, h.2.1, h.2.2 "old.jar" (by decide)⟩

/-- Counterexample to C6 as stated: the first old-version file is locked,
its removal raises `OSError`, and the second old-version file is left in
place — removal of the remaining old files is not attempted. -/
theorem c6_counterexample :
    (download_modrinth_mod c6Env [c6New, c6Old1, c6Old2] "M" "1.20" "fabric" c6Fs true).result
      = .error (.osError "old version could not be removed") ∧
    (download_modrinth_mod c6Env [c6New, c6Old1, c6Old2] "M" "1.20" "fabric" c6Fs true).fs
      = [("m-1.18.jar", ⟨"ccc", "ddd", 7⟩), ("m-1.19.jar", ⟨"eee", "fff", 8⟩),
         ("m-1.20.jar", ⟨"aaa", "bbb", 10⟩)] :=
  ⟨rfl, rfl⟩

/-- C6 (amended): after a successful install, a failure while removing
the first old-version file is reported as a warning only (one WARNING,
zero ERRORs, the loop result is a break, not a crash), the installed file
stays in place (no rollback) — but the cleanup loop is abandoned at the
failure, so no other file is touched, instead of continuing with the
remaining old versions. -/
theorem c6_cleanup_abandoned (env : Env) (json : List Build) (dn v loader : String)
    (fs : FS) (er : Bool) (fns : List String) (chosen : Build) (pf : FileEntry) (d : FileData)
    (o1 : String) (rest : List String)
    (hfns : all_filenames json = some fns)
    (hsel : select_build json dn v loader er = .ok chosen)
    (hpf : primary_file chosen = some pf)
    (hfresh : lookupFile fs pf.filename = none)
    (hnet : env.net pf.url = some d)
    (hver : matches_hashes d (some pf.sha1) (some pf.sha512) (some pf.size) = .ok true)
    (hold : (fs.map (fun p => p.1)).filter (fun x => fns.contains x) = o1 :: rest)
    (hlock : env.locked.contains o1 = true) :
    (download_modrinth_mod env json dn v loader fs er).result
      = .error (.osError "old version could not be removed") ∧
    lookupFile (download_modrinth_mod env json dn v loader fs er).fs pf.filename = some d ∧
    (∀ n, ¬(n = pf.filename) →
      lookupFile (download_modrinth_mod env json dn v loader fs er).fs n = lookupFile fs n) ∧
    (ladder_step env json dn v loader er fs).out = .done .cleanupWarned ∧
    (ladder_step env json dn v loader er fs).warnings = 1 ∧
    (ladder_step env json dn v loader er fs).errors = 0 := by
  have hloop : remove_old_loop env.locked (o1 :: rest) (setFile fs pf.filename d)
      = (setFile fs pf.filename d, true) := by
    simp only [remove_old_loop]
    rw [hlock]
    simp
  have hdl : download_modrinth_mod env json dn v loader fs er =
      ⟨.error (.osError "old version could not be removed"),
        setFile fs pf.filename d, [pf.url], 0⟩ := by
    rw [download_fresh env json dn v loader fs er fns chosen pf hfns hsel hpf hfresh, hold,
      do_download_delivered env pf fs (o1 :: rest) 0 d hnet]
    simp only [write_and_verify]
    rw [setFile_setFile, hver]
    unfold finish_install
    rw [hloop]
  have hstep : ladder_step env json dn v loader er fs =
      ⟨.done .cleanupWarned, setFile fs pf.filename d, 1, 0⟩ := by
    unfold ladder_step
    rw [hdl]
  refine ⟨by rw [hdl], ?_, ?_, by rw [hstep], by rw [hstep], by rw [hstep]⟩
  · rw [hdl]
    exact lookup_setFile_self fs pf.filename d
  · intro n hn
    rw [hdl]
    exact lookup_setFile_ne fs pf.filename n d hn

/-- Witness for C6 (amended) at the concrete locked-file scenario. -/
theorem c6_cleanup_abandoned_witness :
    (download_modrinth_mod c6Env [c6New, c6Old1, c6Old2] "M" "1.20" "fabric" c6Fs true).result
      = .error (.osError "old version could not be removed") ∧
    lookupFile (download_modrinth_mod c6Env [c6New, c6Old1, c6Old2] "M" "1.20" "fabric" c6Fs
      true).fs "m-1.20.jar" = some ⟨"aaa", "bbb", 10⟩ ∧
    lookupFile (download_modrinth_mod c6Env [c6New, c6Old1, c6Old2] "M" "1.20" "fabric" c6Fs
      true).fs "m-1.19.jar" = lookupFile c6Fs "m-1.19.jar" ∧
    (ladder_step c6Env [c6New, c6Old1, c6Old2] "M" "1.20" "fabric" true c6Fs).out
      = .done .cleanupWarned ∧
    (ladder_step c6Env [c6New, c6Old1, c6Old2] "M" "1.20" "fabric" true c6Fs).warnings = 1 ∧
    (ladder_step c6Env [c6New, c6Old1, c6Old2] "M" "1.20" "fabric" true c6Fs).errors = 0 := by
  have h := c6_cleanup_abandoned c6Env [c6New, c6Old1, c6Old2] "M" "1.20" "fabric" c6Fs true
    ["m-1.20.jar", "m-1.18.jar", "m-1.19.jar"] c6New
    ⟨true, "m-1.20.jar", "u20", 10, "aaa", "bbb"⟩ ⟨"aaa", "bbb", 10⟩
    "m-1.18.jar" ["m-1.19.jar"] rfl rfl rfl rfl rfl rfl rfl rfl
  exact ⟨h.1, h.2.1, h.2.2.1 "m-1.19.jar" (by decide), h.2.2.2.1, h.2.2.2.2.1, h.2.2.2.2.2⟩

/-! ## Lemmas for the fallback ladder -/

theorem matches_hashes_self (s1 s2 : String) (sz : Nat) (h : ¬(s1 = "")) :
    matches_hashes ⟨s1, s2, sz⟩ (some s1) (some s2) (some sz) = .ok true := by
  simp [matches_hashes, truthyStr, truthyNat, h]

theorem verStr3_ne_verStr2 (a b c x y : Nat) : ¬(verStr3 a b c = verStr2 x y) := by
  intro h
  have h1 := splitDot_verStr3 a b c
  rw [h, splitDot_verStr2] at h1
  simp at h1

theorem verStr3_third_eq (a b c x y z : Nat) (h : verStr3 a b c = verStr3 x y z) : c = z := by
  have h1 := splitDot_verStr3 a b c
  rw [h, splitDot_verStr3] at h1
  have h2 : natStr z = natStr c := by
    simp at h1
    exact h1.2.2
  have h3 := digitsVal_natStr z
  rw [h2, digitsVal_natStr] at h3
  omega

theorem verStr3_ne_of_third_ne (a b c x y z : Nat) (h : ¬(c = z)) :
    ¬(verStr3 a b c = verStr3 x y z) :=
  fun he => h (verStr3_third_eq a b c x y z he)

theorem select_build_single_miss (bld : Build) (dn v loader : String) (er : Bool)
    (h : ¬(v ∈ bld.game_versions)) :
    select_build [bld] dn v loader er = .error (notFoundMsg dn v er, false) := by
  unfold select_build
  simp [List.filter, h, List.max?]

theorem select_build_single_hit (bld : Build) (dn v loader : String)
    (hv : v ∈ bld.game_versions) (hl : loader ∈ bld.loaders)
    (hr : bld.version_type = "release") :
    select_build [bld] dn v loader true = .ok bld := by
  unfold select_build
  simp [List.filter, hv, hl, hr, List.max?]

theorem ladder_step_miss (env : Env) (json : List Build) (dn v loader : String) (fs : FS)
    (er : Bool) (m : String) (v2 : String)
    (hdl : download_modrinth_mod env json dn v loader fs er
      = ⟨.error (.notFound m false), fs, [], 0⟩)
    (hds : downstep_version v = .ok (some v2)) :
    ladder_step env json dn v loader er fs = ⟨.next v2 true, fs, 1, 0⟩ := by
  unfold ladder_step
  rw [hdl]
  simp [hds]

theorem ladder_step_ok (env : Env) (json : List Build) (dn v loader : String) (fs fs2 : FS)
    (er : Bool) (o : Outcome) (dls : List String) (w : Nat)
    (hdl : download_modrinth_mod env json dn v loader fs er = ⟨.ok o, fs2, dls, w⟩) :
    ladder_step env json dn v loader er fs = ⟨.done (.ok o), fs2, w, 0⟩ := by
  unfold ladder_step
  rw [hdl]

theorem ladder_run_succ_next (env : Env) (json : List Build) (dn loader : String)
    (fuel : Nat) (v : String) (er : Bool) (fs fs2 : FS) (v2 : String) (en2 : Bool) (w e : Nat)
    (hst : ladder_step env json dn v loader er fs = ⟨.next v2 en2, fs2, w, e⟩) :
    ladder_run env json dn loader (fuel + 1) v er fs =
      ⟨(v, er) :: (ladder_run env json dn loader fuel v2 en2 fs2).attempts,
        (ladder_run env json dn loader fuel v2 en2 fs2).fs,
        (ladder_run env json dn loader fuel v2 en2 fs2).result,
        w + (ladder_run env json dn loader fuel v2 en2 fs2).warnings,
        e + (ladder_run env json dn loader fuel v2 en2 fs2).errors⟩ := by
  simp only [ladder_run]
  rw [hst]

theorem ladder_run_succ_done (env : Env) (json : List Build) (dn loader : String)
    (fuel : Nat) (v : String) (er : Bool) (fs fs2 : FS) (r : ModResult) (w e : Nat)
    (hst : ladder_step env json dn v loader er fs = ⟨.done r, fs2, w, e⟩) :
    ladder_run env json dn loader (fuel + 1) v er fs = ⟨[(v, er)], fs2, some r, w, e⟩ := by
  simp only [ladder_run]
  rw [hst]

/-! ## Claim theorems: the fallback ladder -/

/-- Counterexample to C3 as stated: with a candidate set holding a
release only at "1.20" (= V-2 for V = "1.20.2"), the ladder's attempts
are exactly (V, release), (V-1, release), (V-2, release): the claimed
(V, prerelease) attempt never happens, because the availability flag is
false at V. -/
theorem c3_counterexample :
    (ladder_run c3Env [c3Bld] "ModZ" "fabric" 5 "1.20.2" true c3Fs).attempts
      = [("1.20.2", true), ("1.20.1", true), ("1.20", true)] ∧
    ¬(("1.20.2", false) ∈ (ladder_run c3Env [c3Bld] "ModZ" "fabric" 5 "1.20.2" true c3Fs).attempts) ∧
    (ladder_run c3Env [c3Bld] "ModZ" "fabric" 5 "1.20.2" true c3Fs).result
      = some (.ok .skipped) := by
  refine ⟨by decide, by decide, by decide⟩

/-- C3 (amended): a prerelease attempt at a version happens only when the
availability flag from the release-only attempt is true; with a candidate
set holding a release only two downsteps below V = `a.b.(k+2)`, nothing
matches at V or V-1, so the flag is false there and the attempt sequence
is exactly (V, release), (V-1, release), (V-2, release) = match — no
prerelease attempt is ever made. -/
theorem c3_fallback_order (a b k dp : Nat) (dn loader : String) (pf : FileEntry)
    (net : String → Option FileData) (fuel : Nat)
    (hprim : pf.primary = true) (hsha : ¬(pf.sha1 = "")) :
    (ladder_run ⟨net, []⟩ [c3ScenBuild a b k dp loader pf] dn loader (fuel + 3)
        (verStr3 a b (k + 2)) true (c3ScenFs pf)).attempts =
      [(verStr3 a b (k + 2), true), (verStr3 a b (k + 1), true), (c3Target a b k, true)] ∧
    (ladder_run ⟨net, []⟩ [c3ScenBuild a b k dp loader pf] dn loader (fuel + 3)
        (verStr3 a b (k + 2)) true (c3ScenFs pf)).result = some (.ok .skipped) ∧
    ¬((verStr3 a b (k + 2), false) ∈ (ladder_run ⟨net, []⟩ [c3ScenBuild a b k dp loader pf]
        dn loader (fuel + 3) (verStr3 a b (k + 2)) true (c3ScenFs pf)).attempts) ∧
    ¬((c3Target a b k, false) ∈ (ladder_run ⟨net, []⟩ [c3ScenBuild a b k dp loader pf]
        dn loader (fuel + 3) (verStr3 a b (k + 2)) true (c3ScenFs pf)).attempts) := by
  have hpfile : primary_file (c3ScenBuild a b k dp loader pf) = some pf :=
    primary_file_single _ pf rfl hprim
  have hfns : all_filenames [c3ScenBuild a b k dp loader pf] = some [pf.filename] :=
    all_filenames_single _ pf hpfile
  have hne1 : ¬(verStr3 a b (k + 2) ∈ [c3Target a b k]) := by
    intro hmem
    rw [List.mem_singleton] at hmem
    unfold c3Target at hmem
    by_cases hk : k = 0
    · rw [if_pos hk] at hmem
      exact verStr3_ne_verStr2 a b (k + 2) a b hmem
    · rw [if_neg hk] at hmem
      exact verStr3_ne_of_third_ne a b (k + 2) a b k (by omega) hmem
  have hne2 : ¬(verStr3 a b (k + 1) ∈ [c3Target a b k]) := by
    intro hmem
    rw [List.mem_singleton] at hmem
    unfold c3Target at hmem
    by_cases hk : k = 0
    · rw [if_pos hk] at hmem
      exact verStr3_ne_verStr2 a b (k + 1) a b hmem
    · rw [if_neg hk] at hmem
      exact verStr3_ne_of_third_ne a b (k + 1) a b k (by omega) hmem
  have hds1 : downstep_version (verStr3 a b (k + 2)) = .ok (some (verStr3 a b (k + 1))) := by
    rw [downstep_verStr3 a b (k + 2) (by omega)]
    rw [if_neg (by omega)]
    have he : k + 2 - 1 = k + 1 := by omega
    rw [he]
  have hds2 : downstep_version (verStr3 a b (k + 1)) = .ok (some (c3Target a b k)) := by
    rw [downstep_verStr3 a b (k + 1) (by omega)]
    unfold c3Target
    by_cases hk : k = 0
    · subst hk
      rw [if_pos rfl, if_pos rfl]
    · rw [if_neg (by omega), if_neg hk]
      have he : k + 1 - 1 = k := by omega
      rw [he]
  have hmiss1 : download_modrinth_mod ⟨net, []⟩ [c3ScenBuild a b k dp loader pf] dn
      (verStr3 a b (k + 2)) loader (c3ScenFs pf) true
      = ⟨.error (.notFound (notFoundMsg dn (verStr3 a b (k + 2)) true) false),
          c3ScenFs pf, [], 0⟩ :=
    download_notFound _ _ _ _ _ _ _ _ _ _ hfns
      (select_build_single_miss (c3ScenBuild a b k dp loader pf) dn (verStr3 a b (k + 2))
        loader true hne1)
  have hmiss2 : download_modrinth_mod ⟨net, []⟩ [c3ScenBuild a b k dp loader pf] dn
      (verStr3 a b (k + 1)) loader (c3ScenFs pf) true
      = ⟨.error (.notFound (notFoundMsg dn (verStr3 a b (k + 1)) true) false),
          c3ScenFs pf, [], 0⟩ :=
    download_notFound _ _ _ _ _ _ _ _ _ _ hfns
      (select_build_single_miss (c3ScenBuild a b k dp loader pf) dn (verStr3 a b (k + 1))
        loader true hne2)
  have hstep1 := ladder_step_miss ⟨net, []⟩ [c3ScenBuild a b k dp loader pf] dn
    (verStr3 a b (k + 2)) loader (c3ScenFs pf) true _ _ hmiss1 hds1
  have hstep2 := ladder_step_miss ⟨net, []⟩ [c3ScenBuild a b k dp loader pf] dn
    (verStr3 a b (k + 1)) loader (c3ScenFs pf) true _ _ hmiss2 hds2
  have hsel3 : select_build [c3ScenBuild a b k dp loader pf] dn (c3Target a b k) loader true
      = .ok (c3ScenBuild a b k dp loader pf) :=
    select_build_single_hit _ dn _ loader (List.mem_singleton.mpr rfl)
      (List.mem_singleton.mpr rfl) rfl
  have hlook3 : lookupFile (c3ScenFs pf) pf.filename = some ⟨pf.sha1, pf.sha512, pf.size⟩ := by
    simp [c3ScenFs, lookupFile]
  have hmatch : matches_hashes ⟨pf.sha1, pf.sha512, pf.size⟩ (some pf.sha1) (some pf.sha512)
      (some pf.size) = .ok true := matches_hashes_self pf.sha1 pf.sha512 pf.size hsha
  have holdv : ((c3ScenFs pf).map (fun p => p.1)).filter
      (fun x => ([pf.filename] : List String).contains x) = [pf.filename] := by
    simp [c3ScenFs, List.filter]
  have hfin : finish_install ⟨net, []⟩ .skipped (c3ScenFs pf) [pf.filename] [] 0
      = ⟨.ok .skipped, [], [], 0⟩ := by
    unfold finish_install
    have hloop : remove_old_loop ([] : List String) [pf.filename] (c3ScenFs pf)
        = ([], false) := by
      simp only [remove_old_loop]
      rw [hlook3]
      simp [c3ScenFs, removeFile, remove_old_loop]
    rw [hloop]
  have hhit : download_modrinth_mod ⟨net, []⟩ [c3ScenBuild a b k dp loader pf] dn
      (c3Target a b k) loader (c3ScenFs pf) true = ⟨.ok .skipped, [], [], 0⟩ := by
    rw [download_skip _ _ _ _ _ _ _ _ _ pf _ hfns hsel3 hpfile hlook3 hmatch, holdv, hfin]
  have hstep3 := ladder_step_ok ⟨net, []⟩ [c3ScenBuild a b k dp loader pf] dn
    (c3Target a b k) loader (c3ScenFs pf) [] true .skipped [] 0 hhit
  rw [show fuel + 3 = fuel + 2 + 1 from rfl,
    ladder_run_succ_next _ _ _ _ (fuel + 2) _ _ _ _ _ _ _ _ hstep1,
    show fuel + 2 = fuel + 1 + 1 from rfl,
    ladder_run_succ_next _ _ _ _ (fuel + 1) _ _ _ _ _ _ _ _ hstep2,
    ladder_run_succ_done _ _ _ _ fuel _ _ _ _ _ _ _ hstep3]
  refine ⟨rfl, rfl, by simp, by simp⟩

/-- Witness for C3 (amended) at a = 1, b = 20, k = 0: versions 1.20.2,
1.20.1, 1.20. -/
theorem c3_fallback_order_witness :
    (ladder_run ⟨fun _ => none, []⟩
        [c3ScenBuild 1 20 0 5 "fabric" ⟨true, "w.jar", "u", 10, "aaa", "bbb"⟩]
        "W" "fabric" (0 + 3) (verStr3 1 20 (0 + 2)) true
        (c3ScenFs ⟨true, "w.jar", "u", 10, "aaa", "bbb"⟩)).attempts =
      [(verStr3 1 20 (0 + 2), true), (verStr3 1 20 (0 + 1), true), (c3Target 1 20 0, true)] ∧
    (ladder_run ⟨fun _ => none, []⟩
        [c3ScenBuild 1 20 0 5 "fabric" ⟨true, "w.jar", "u", 10, "aaa", "bbb"⟩]
        "W" "fabric" (0 + 3) (verStr3 1 20 (0 + 2)) true
        (c3ScenFs ⟨true, "w.jar", "u", 10, "aaa", "bbb"⟩)).result = some (.ok .skipped) := by
  have h := c3_fallback_order 1 20 0 5 "W" "fabric" ⟨true, "w.jar", "u", 10, "aaa", "bbb"⟩
    (fun _ => none) 0 (by decide) (by decide)
  exact ⟨h.1, h.2.1⟩

/-- The flag of a not-found failure can only come from the corresponding
`ValueError`. -/
theorem notFoundFlag_eq_some (r : Except Exc Outcome) (fl : Bool)
    (h : notFoundFlag r = some fl) : ∃ m, r = .error (.notFound m fl) := by
  cases r with
  | ok o => simp [notFoundFlag] at h
  | error exc =>
    cases exc with
    | notFound m f =>
      simp [notFoundFlag] at h
      exact ⟨m, by rw [h]⟩
    | noIdentifiers m => simp [notFoundFlag] at h
    | downloadError m => simp [notFoundFlag] at h
    | httpError m => simp [notFoundFlag] at h
    | osError m => simp [notFoundFlag] at h
    | indexError => simp [notFoundFlag] at h

/-- How one loop iteration reacts to a not-found failure. -/
theorem ladder_step_notFound (env : Env) (json : List Build) (dn v loader : String)
    (fs : FS) (er : Bool) (m : String) (fl : Bool) (fs2 : FS) (dls : List String) (w : Nat)
    (hdl : download_modrinth_mod env json dn v loader fs er
      = ⟨.error (.notFound m fl), fs2, dls, w⟩) :
    ladder_step env json dn v loader er fs =
      (if er && fl then ⟨.next v false, fs2, w + 1, 0⟩
       else
        match downstep_version v with
        | .ok (some v2) => ⟨.next v2 true, fs2, w + 1, 0⟩
        | .ok none => ⟨.crash, fs2, w + 1, 0⟩
        | .error _ => ⟨.done .failed, fs2, w + 1, 1⟩) := by
  unfold ladder_step
  rw [hdl]

/-- C4: on a not-found failure under releaseOnly with the availability
flag true, the next attempt is the same version with prereleases allowed;
with the flag false, or after a prerelease-allowed failure, the version
is downstepped and retried with releaseOnly (prerelease never persists);
when downstep fails, the loop breaks with exactly one ERROR for that mod;
and the mods loop yields one result per configured mod, so the batch
always continues past a failed mod. -/
theorem c4_ladder_control :
    (∀ (env : Env) (json : List Build) (dn v loader : String) (fs : FS),
      (notFoundFlag (download_modrinth_mod env json dn v loader fs true).result = some true →
        (ladder_step env json dn v loader true fs).out = .next v false) ∧
      (∀ v2, notFoundFlag (download_modrinth_mod env json dn v loader fs true).result
          = some false →
        downstep_version v = .ok (some v2) →
        (ladder_step env json dn v loader true fs).out = .next v2 true) ∧
      (∀ v2 flag, notFoundFlag (download_modrinth_mod env json dn v loader fs false).result
          = some flag →
        downstep_version v = .ok (some v2) →
        (ladder_step env json dn v loader false fs).out = .next v2 true) ∧
      (∀ e, notFoundFlag (download_modrinth_mod env json dn v loader fs true).result
          = some false →
        downstep_version v = .error e →
        (ladder_step env json dn v loader true fs).out = .done .failed ∧
        (ladder_step env json dn v loader true fs).errors = 1) ∧
      (∀ e flag, notFoundFlag (download_modrinth_mod env json dn v loader fs false).result
          = some flag →
        downstep_version v = .error e →
        (ladder_step env json dn v loader false fs).out = .done .failed ∧
        (ladder_step env json dn v loader false fs).errors = 1)) ∧
    (∀ (env : Env) (api : String → List Build) (loader : String) (fuel : Nat) (ver : String)
      (ms : List ModRef) (fs : FS),
      (run_mods env api loader fuel ver ms fs).1.length = ms.length) := by
  constructor
  · intro env json dn v loader fs
    refine ⟨?_, ?_, ?_, ?_, ?_⟩
    · intro h
      rcases hdl : download_modrinth_mod env json dn v loader fs true with ⟨res, fs2, dls, w⟩
      rw [hdl] at h
      obtain ⟨m, rfl⟩ := notFoundFlag_eq_some res true h
      rw [ladder_step_notFound env json dn v loader fs true m true fs2 dls w hdl]
      rfl
    · intro v2 h hds
      rcases hdl : download_modrinth_mod env json dn v loader fs true with ⟨res, fs2, dls, w⟩
      rw [hdl] at h
      obtain ⟨m, rfl⟩ := notFoundFlag_eq_some res false h
      rw [ladder_step_notFound env json dn v loader fs true m false fs2 dls w hdl]
      simp [hds]
    · intro v2 flag h hds
      rcases hdl : download_modrinth_mod env json dn v loader fs false with ⟨res, fs2, dls, w⟩
      rw [hdl] at h
      obtain ⟨m, rfl⟩ := notFoundFlag_eq_some res flag h
      rw [ladder_step_notFound env json dn v loader fs false m flag fs2 dls w hdl]
      simp [hds]
    · intro e h hds
      rcases hdl : download_modrinth_mod env json dn v loader fs true with ⟨res, fs2, dls, w⟩
      rw [hdl] at h
      obtain ⟨m, rfl⟩ := notFoundFlag_eq_some res false h
      rw [ladder_step_notFound env json dn v loader fs true m false fs2 dls w hdl]
      simp [hds]
    · intro e flag h hds
      rcases hdl : download_modrinth_mod env json dn v loader fs false with ⟨res, fs2, dls, w⟩
      rw [hdl] at h
      obtain ⟨m, rfl⟩ := notFoundFlag_eq_some res flag h
      rw [ladder_step_notFound env json dn v loader fs false m flag fs2 dls w hdl]
      simp [hds]
  · intro env api loader fuel ver ms
    induction ms with
    | nil => intro fs; rfl
    | cons m ms ih =>
      intro fs
      by_cases hs : (m.site == "modrinth") = true
      · simp [run_mods, hs, ih]
      · simp only [run_mods]
        rw [if_neg (by simpa using hs)]
        simp [ih]

/-- Witness for C4 at concrete inputs: a beta-only candidate set for the
flag-true case, an empty candidate set for the flag-false cases, "1.20.2"
for a successful downstep and "1.20" for a failing one. -/
theorem c4_ladder_control_witness :
    (ladder_step c4Env [c4Pre] "M" "1.20.2" "fabric" true []).out = .next "1.20.2" false ∧
    (ladder_step c4Env [] "M" "1.20.2" "fabric" true []).out = .next "1.20.1" true ∧
    (ladder_step c4Env [] "M" "1.20.2" "fabric" false []).out = .next "1.20.1" true ∧
    ((ladder_step c4Env [] "M" "1.20" "fabric" true []).out = .done .failed ∧
      (ladder_step c4Env [] "M" "1.20" "fabric" true []).errors = 1) ∧
    ((ladder_step c4Env [] "M" "1.20" "fabric" false []).out = .done .failed ∧
      (ladder_step c4Env [] "M" "1.20" "fabric" false []).errors = 1) ∧
    (run_mods c4Env (fun _ => []) "fabric" 1 "1.20" c4Mods []).1.length = c4Mods.length := by
  refine ⟨(c4_ladder_control.1 c4Env [c4Pre] "M" "1.20.2" "fabric" []).1 (by decide),
    (c4_ladder_control.1 c4Env [] "M" "1.20.2" "fabric" []).2.1 "1.20.1" (by decide) rfl,
    (c4_ladder_control.1 c4Env [] "M" "1.20.2" "fabric" []).2.2.1 "1.20.1" false
      (by decide) rfl,
    (c4_ladder_control.1 c4Env [] "M" "1.20" "fabric" []).2.2.2.1 _ (by decide) rfl,
    (c4_ladder_control.1 c4Env [] "M" "1.20" "fabric" []).2.2.2.2 _ false (by decide) rfl,
    c4_ladder_control.2 c4Env (fun _ => []) "fabric" 1 "1.20" c4Mods []⟩

end UpdateMods
